import Mathlib

/-!
Verification of the DexDB offer store (src/dex/db/dexdb.cpp) against its
natural-language specification.  The definitions below are a shallow
embedding of the store: each SQL table is a Lean list of row values, each
operation of dexdb.cpp is a Lean function performing the same row
transformation the SQL statement performs, and the sqlite3pp status codes
and the DexDBException control flow are made explicit.
-/

namespace dex

/-- Table tags of the notification callback (enum TypeTable, declared in
dexdb.h; the constructors are exactly those used in dexdb.cpp). -/
inductive TypeTable where
  | Countries
  | Currencies
  | PaymentMethods
  | OffersSell
  | OffersBuy
  | MyOffers
  | FiltersList
deriving DecidableEq, Repr

/-- Operation kinds of the notification callback (enum TypeTableOperation). -/
inductive TypeTableOperation where
  | Add
  | Edit
  | Delete
  | Read
deriving DecidableEq, Repr

/-- Outcome reported to observers (enum StatusTableOperation). -/
inductive StatusTableOperation where
  | Ok
  | Error
deriving DecidableEq, Repr

/-- Window selector of the manifest queries (enum OffersPeriod). -/
inductive OffersPeriod where
  | All
  | Before
  | After
deriving DecidableEq, Repr

/-- One event delivered to a registered observer (a CallBackDB entry of the
DexDB::callBack map; observers are identified by a number standing for the
CallBackDB pointer). -/
structure CallBackEvent where
  observer : Nat
  tables : TypeTable
  operation : TypeTableOperation
  status : StatusTableOperation
deriving DecidableEq, Repr

/-- DexDB::finishTableOperation (dexdb.cpp:1670).  When status is nonzero the
function throws DexDBException(status) — modelled as Except.error — and
control never reaches the callback loop, so no observer is notified.  When
status is zero every registered observer receives the event; the branch that
would set StatusTableOperation.Error fires only when status equals 1, which
is unreachable past the throw, so the delivered status is always Ok. -/
def finishTableOperation (tables : TypeTable) (operation : TypeTableOperation)
    (status : Int) (observers : List Nat) : Except Int (List CallBackEvent) :=
  if status ≠ 0 then
    Except.error status
  else
    Except.ok (observers.map fun o =>
      { observer := o, tables := tables, operation := operation,
        status := if status = 1 then StatusTableOperation.Error
                  else StatusTableOperation.Ok })

/-- Image of a C++ uint64_t value under static_cast<long long int>, the cast
used by DexDB::bindOfferData before handing a value to sqlite3pp (two's
complement reinterpretation). -/
def toInt64 (v : Nat) : Int :=
  if v < 2 ^ 63 then (v : Int) else (v : Int) - 2 ^ 64

/-- Image of a stored 64-bit integer column under assignment back to a
uint64_t field in DexDB::getOffer (reduction modulo 2^64). -/
def ofInt64 (i : Int) : Nat :=
  (i % (2 ^ 64 : Int)).toNat

/-- Image of a C++ uint32_t value under static_cast<int>, the cast used by
DexDB::bindOfferData for editingVersion. -/
def toInt32 (v : Nat) : Int :=
  if v < 2 ^ 31 then (v : Int) else (v : Int) - 2 ^ 32

/-- Image of a stored int column under static_cast<uint32_t> in
DexDB::getOffer (reduction modulo 2^32). -/
def ofInt32 (i : Int) : Nat :=
  (i % (2 ^ 32 : Int)).toNat

/-- In-memory offer record (struct OfferInfo of dex.h).  uint256 values are
modelled as natural numbers below 2^256 — GetHex/SetHex is a bijection
between uint256 values and their stored hex text, so the text column is
identified with the number it encodes.  uint64_t and uint32_t fields are
natural numbers bounded by ValidOfferInfo. -/
structure OfferInfo where
  idTransaction : Nat
  hash : Nat
  pubKey : String
  countryIso : String
  currencyIso : String
  paymentMethod : Nat
  price : Nat
  minAmount : Nat
  timeCreate : Nat
  timeToExpiration : Nat
  timeModification : Nat
  shortInfo : String
  details : String
  editingVersion : Nat
  editsign : String
deriving DecidableEq, Repr

/-- Range constraints of the C++ field types of OfferInfo. -/
def ValidOfferInfo (o : OfferInfo) : Prop :=
  o.idTransaction < 2 ^ 256 ∧ o.hash < 2 ^ 256 ∧ o.paymentMethod < 2 ^ 8 ∧
  o.price < 2 ^ 64 ∧ o.minAmount < 2 ^ 64 ∧ o.timeCreate < 2 ^ 64 ∧
  o.timeToExpiration < 2 ^ 64 ∧ o.timeModification < 2 ^ 64 ∧
  o.editingVersion < 2 ^ 32

instance (o : OfferInfo) : Decidable (ValidOfferInfo o) := by
  unfold ValidOfferInfo; infer_instance

/-- One row of offersSell or offersBuy as stored on disk
(templateOffersTable, dexdb.cpp:1804): integer columns hold the two's
complement images bound by DexDB::bindOfferData (dexdb.cpp:1175), text
columns hold the strings (hash and idTransaction identified with the uint256
value their hex text encodes). -/
structure OfferRow where
  idTransaction : Nat
  hash : Nat
  pubKey : String
  countryIso : String
  currencyIso : String
  paymentMethod : Nat
  price : Int
  minAmount : Int
  timeCreate : Int
  timeToExpiration : Int
  timeModification : Int
  shortInfo : String
  details : String
  editingVersion : Int
  editsign : String
deriving DecidableEq, Repr

/-- DexDB::bindOfferData (dexdb.cpp:1175): the values bound for one offer,
i.e. the row an INSERT with these bindings stores. -/
def bindOfferData (offer : OfferInfo) : OfferRow :=
  { idTransaction := offer.idTransaction
  , hash := offer.hash
  , pubKey := offer.pubKey
  , countryIso := offer.countryIso
  , currencyIso := offer.currencyIso
  , paymentMethod := offer.paymentMethod
  , price := toInt64 offer.price
  , minAmount := toInt64 offer.minAmount
  , timeCreate := toInt64 offer.timeCreate
  , timeToExpiration := toInt64 offer.timeToExpiration
  , timeModification := toInt64 offer.timeModification
  , shortInfo := offer.shortInfo
  , details := offer.details
  , editingVersion := toInt32 offer.editingVersion
  , editsign := offer.editsign }

/-- DexDB::getOffer(sqlite3pp::query::iterator) (dexdb.cpp:1387): decoding of
one stored row back into an OfferInfo, with the casts the source performs
(long long int columns assigned to uint64_t fields, the int editingVersion
column passed through static_cast<uint32_t>). -/
def getOfferFromRow (r : OfferRow) : OfferInfo :=
  { idTransaction := r.idTransaction
  , hash := r.hash
  , pubKey := r.pubKey
  , countryIso := r.countryIso
  , currencyIso := r.currencyIso
  , paymentMethod := r.paymentMethod
  , price := ofInt64 r.price
  , minAmount := ofInt64 r.minAmount
  , timeCreate := ofInt64 r.timeCreate
  , timeToExpiration := ofInt64 r.timeToExpiration
  , timeModification := ofInt64 r.timeModification
  , shortInfo := r.shortInfo
  , details := r.details
  , editingVersion := ofInt32 r.editingVersion
  , editsign := r.editsign }

/-- Errors an offer-table operation can surface.  DuplicateKey is the
SQLITE_CONSTRAINT status returned by an INSERT violating the hash PRIMARY
KEY, raised to the caller as a DexDBException by finishTableOperation;
NotFound is the error the specification names for point lookups on absent
keys and is listed so that statements about it can be expressed. -/
inductive DexError where
  | DuplicateKey
  | NotFound
deriving DecidableEq, Repr

/-- DexDB::addOffer / addOrEditOffer (dexdb.cpp:1121, 1155): INSERT INTO the
offers table.  The hash column is the PRIMARY KEY (templateOffersTable,
dexdb.cpp:1804), so inserting a hash that is already present fails with a
constraint violation and leaves the table unchanged; otherwise the bound row
is appended.  The pair is (raised error, table contents after the call). -/
def addOffer (rows : List OfferRow) (offer : OfferInfo) :
    Option DexError × List OfferRow :=
  let r := bindOfferData offer
  if rows.any fun row => row.hash == r.hash then
    (some DexError.DuplicateKey, rows)
  else
    (none, rows ++ [r])

/-- DexDB::editOffer / addOrEditOffer (dexdb.cpp:1138, 1155): UPDATE
(table) SET every bound column except idTransaction WHERE hash = :hash.  An
UPDATE whose WHERE clause matches no row is a successful no-op in SQLite
(sqlite3pp returns status 0), so no error is ever raised here. -/
def editOffer (rows : List OfferRow) (offer : OfferInfo) :
    Option DexError × List OfferRow :=
  let r := bindOfferData offer
  (none, rows.map fun row =>
    if row.hash == r.hash then { r with idTransaction := row.idTransaction }
    else row)

/-- DexDB::getOfferByHash (dexdb.cpp:1357): SELECT the row WHERE the hash
column equals the hex of the requested hash, decoded by DexDB::getOffer
(dexdb.cpp:1387); none when no row matches. -/
def getOfferByHash (rows : List OfferRow) (hash : Nat) : Option OfferInfo :=
  (rows.find? fun row => row.hash == hash).map getOfferFromRow

/-- One row of the myOffers table (createTables, dexdb.cpp:1699): the offer
columns plus the type and status INT columns holding the integer images of
the TypeOffer and StatusOffer enum values. -/
structure MyOfferRow where
  idTransaction : Nat
  hash : Nat
  pubKey : String
  countryIso : String
  currencyIso : String
  paymentMethod : Nat
  price : Int
  minAmount : Int
  timeCreate : Int
  timeToExpiration : Int
  timeModification : Int
  shortInfo : String
  details : String
  type : Int
  status : Int
  editingVersion : Int
  editsign : String
deriving DecidableEq, Repr

/-- DexDB::deleteOldOffers (dexdb.cpp:1235) on offersSell or offersBuy:
DELETE FROM (table) WHERE timeToExpiration <= now, where now is the
time(NULL) value taken inside the function. -/
def deleteOldOffers (rows : List OfferRow) (now : Int) : List OfferRow :=
  rows.filter fun row => ! decide (row.timeToExpiration ≤ now)

/-- DexDB::deleteOldMyOffers (dexdb.cpp:821) forwards to
deleteOldOffers("myOffers"): DELETE FROM myOffers WHERE
timeToExpiration <= now. -/
def deleteOldMyOffers (rows : List MyOfferRow) (now : Int) : List MyOfferRow :=
  rows.filter fun row => ! decide (row.timeToExpiration ≤ now)

/-- DexDB::setStatusExpiredForMyOffers (dexdb.cpp:1056): UPDATE myOffers SET
status = StatusOffer::Expired WHERE timeToExpiration < now.  The expired
argument is the integer image of StatusOffer::Expired; the enum is declared
in dex.h (outside the sources at hand), so the value is kept as a
parameter — no statement below depends on it. -/
def setStatusExpiredForMyOffers (rows : List MyOfferRow) (now : Int)
    (expired : Int) : List MyOfferRow :=
  rows.map fun row =>
    if row.timeToExpiration < now then { row with status := expired } else row

/-- DexDB::getHashsAndEditingVersions (dexdb.cpp:1480): SELECT DISTINCT hash,
editingVersion FROM (table), with an optional WHERE window on
timeModification (Before: strictly below timeMod; After: at least timeMod;
All: no clause).  DISTINCT is modelled by List.dedup; the int column is cast
back through uint32_t exactly as the reading loop does. -/
def getHashsAndEditingVersions (rows : List OfferRow) (period : OffersPeriod)
    (timeMod : Int) : List (Nat × Nat) :=
  let filtered := match period with
    | OffersPeriod.All => rows
    | OffersPeriod.Before =>
        rows.filter fun row => decide (row.timeModification < timeMod)
    | OffersPeriod.After =>
        rows.filter fun row => decide (timeMod ≤ row.timeModification)
  (filtered.map fun row => (row.hash, ofInt32 row.editingVersion)).dedup

/-- LIMIT/OFFSET tail of the query built by DexDB::getOffers (dexdb.cpp:1312)
and DexDB::getMyOffers (dexdb.cpp:934): the LIMIT clause is appended only
when limit > 0, and the OFFSET clause only inside that branch when
offset > 0. -/
def applyLimitOffset {α : Type} (rows : List α) (limit offset : Int) :
    List α :=
  if 0 < limit then
    if 0 < offset then (rows.drop offset.toNat).take limit.toNat
    else rows.take limit.toNat
  else rows

/-- WHERE clause built by DexDB::getOffers (dexdb.cpp:1280) and the remote
branches of countOffers: one conjunct per active filter; countryIso and
currencyIso are active when nonempty, paymentMethod when strictly
positive. -/
def offerRowMatches (row : OfferRow) (countryIso currencyIso : String)
    (payment : Nat) : Bool :=
  (if countryIso ≠ "" then row.countryIso == countryIso else true) &&
  (if currencyIso ≠ "" then row.currencyIso == currencyIso else true) &&
  (if 0 < payment then row.paymentMethod == payment else true)

/-- DexDB::getOffers with filters (dexdb.cpp:1280).  The function returns the
selected rows; the source decodes each selected row with getOfferFromRow,
which does not change which rows are selected. -/
def getOffers (rows : List OfferRow) (countryIso currencyIso : String)
    (payment : Nat) (limit offset : Int) : List OfferRow :=
  applyLimitOffset
    (rows.filter fun row => offerRowMatches row countryIso currencyIso payment)
    limit offset

/-- WHERE clause built by DexDB::getMyOffers (dexdb.cpp:886) and
DexDB::countOffers (dexdb.cpp:1581): countryIso and currencyIso are active
when nonempty, paymentMethod when strictly positive, type when at least
zero, statusOffer when strictly positive. -/
def myOfferRowMatches (row : MyOfferRow) (countryIso currencyIso : String)
    (payment : Nat) (typeOffer statusOffer : Int) : Bool :=
  (if countryIso ≠ "" then row.countryIso == countryIso else true) &&
  (if currencyIso ≠ "" then row.currencyIso == currencyIso else true) &&
  (if 0 < payment then row.paymentMethod == payment else true) &&
  (if 0 ≤ typeOffer then row.type == typeOffer else true) &&
  (if 0 < statusOffer then row.status == statusOffer else true)

/-- DexDB::getMyOffers with filters (dexdb.cpp:886): WHERE clause over the
five filter fields, then the same LIMIT/OFFSET tail as getOffers. -/
def getMyOffers (rows : List MyOfferRow) (countryIso currencyIso : String)
    (payment : Nat) (typeOffer statusOffer : Int) (limit offset : Int) :
    List MyOfferRow :=
  applyLimitOffset
    (rows.filter fun row =>
      myOfferRowMatches row countryIso currencyIso payment typeOffer statusOffer)
    limit offset

/-- DexDB::countOffers with filters (dexdb.cpp:1581): SELECT count(*) with
the same WHERE clause as getMyOffers (the remote callers pass -1 for type
and 0 for statusOffer, deactivating those clauses). -/
def countOffers (rows : List MyOfferRow) (countryIso currencyIso : String)
    (payment : Nat) (typeOffer statusOffer : Int) : Nat :=
  (rows.filter fun row =>
    myOfferRowMatches row countryIso currencyIso payment typeOffer
      statusOffer).length

/-- DexDB::lastModificationOffers (dexdb.cpp:1637): SELECT
MAX(timeModification) FROM (table); on an empty table SQLite yields NULL,
which the getter reads as 0. -/
def lastModificationOffers (rows : List OfferRow) : Int :=
  rows.foldl (fun m row => max m row.timeModification) 0

/-- One row of the countries table (createTables, dexdb.cpp:1693). -/
structure CountryRow where
  iso : String
  name : String
  enabled : Bool
  currencyId : Int
  sortOrder : Int
deriving DecidableEq, Repr

/-- One row of the currencies table (createTables, dexdb.cpp:1694). -/
structure CurrencyRow where
  id : Int
  iso : String
  name : String
  symbol : String
  enabled : Bool
  sortOrder : Int
deriving DecidableEq, Repr

/-- One row of the paymentMethods table (createTables, dexdb.cpp:1696). -/
structure PaymentMethodRow where
  type : Int
  name : String
  description : String
  sortOrder : Int
deriving DecidableEq, Repr

/-- The two reference tables touched by DexDB::addCurrency, kept side by side
so that the table the operation mutates and the table its notification names
can be compared. -/
structure RefTablesState where
  countries : List CountryRow
  currencies : List CurrencyRow
deriving DecidableEq, Repr

/-- DexDB::addCurrency (dexdb.cpp:368): INSERT INTO currencies, then
finishTableOperation(Countries, Add, status) — the notification names the
Countries table although the insert targets currencies.  The success path
(status 0) is modelled; the engine-assigned INTEGER PRIMARY KEY id is part
of the supplied row. -/
def addCurrency (s : RefTablesState) (row : CurrencyRow)
    (observers : List Nat) :
    RefTablesState × Except Int (List CallBackEvent) :=
  ({ s with currencies := s.currencies ++ [row] },
   finishTableOperation TypeTable.Countries TypeTableOperation.Add 0 observers)

/-- DexDB::lastModificationOffersSell (dexdb.cpp:645): reads
MAX(timeModification) from the offersSell table and reports the completion
through finishTableOperation(OffersBuy, Read, status) — tagged with the
OffersBuy table although offersSell was read. -/
def lastModificationOffersSell (sellRows : List OfferRow)
    (observers : List Nat) : Int × Except Int (List CallBackEvent) :=
  (lastModificationOffers sellRows,
   finishTableOperation TypeTable.OffersBuy TypeTableOperation.Read 0 observers)

/-- One row of the legacy (previous schema version) offersSell or offersBuy
table: exactly the columns named by the SELECT of moveTablesData
(dexdb.cpp:231); the legacy schema has no timeModification column. -/
structure OldOfferRow where
  idTransaction : Nat
  hash : Nat
  pubKey : String
  countryIso : String
  currencyIso : String
  paymentMethod : Nat
  price : Int
  minAmount : Int
  timeCreate : Int
  timeToExpiration : Int
  shortInfo : String
  details : String
  editingVersion : Int
  editsign : String
deriving DecidableEq, Repr

/-- One row of the legacy myOffers table: the columns named by the SELECT of
moveTablesData (dexdb.cpp:227); no timeModification column. -/
structure OldMyOfferRow where
  hash : Nat
  idTransaction : Nat
  pubKey : String
  countryIso : String
  currencyIso : String
  paymentMethod : Nat
  price : Int
  minAmount : Int
  timeCreate : Int
  timeToExpiration : Int
  shortInfo : String
  details : String
  type : Int
  status : Int
  editingVersion : Int
  editsign : String
deriving DecidableEq, Repr

/-- Column mapping applied by moveTablesData to one offersSell/offersBuy row
(dexdb.cpp:231): every legacy column is copied and the new timeModification
column is filled with timeCreate. -/
def migrateOfferRow (r : OldOfferRow) : OfferRow :=
  { idTransaction := r.idTransaction
  , hash := r.hash
  , pubKey := r.pubKey
  , countryIso := r.countryIso
  , currencyIso := r.currencyIso
  , paymentMethod := r.paymentMethod
  , price := r.price
  , minAmount := r.minAmount
  , timeCreate := r.timeCreate
  , timeToExpiration := r.timeToExpiration
  , timeModification := r.timeCreate
  , shortInfo := r.shortInfo
  , details := r.details
  , editingVersion := r.editingVersion
  , editsign := r.editsign }

/-- Column mapping applied by moveTablesData to one myOffers row
(dexdb.cpp:227): timeModification is filled with timeCreate. -/
def migrateMyOfferRow (r : OldMyOfferRow) : MyOfferRow :=
  { idTransaction := r.idTransaction
  , hash := r.hash
  , pubKey := r.pubKey
  , countryIso := r.countryIso
  , currencyIso := r.currencyIso
  , paymentMethod := r.paymentMethod
  , price := r.price
  , minAmount := r.minAmount
  , timeCreate := r.timeCreate
  , timeToExpiration := r.timeToExpiration
  , timeModification := r.timeCreate
  , shortInfo := r.shortInfo
  , details := r.details
  , type := r.type
  , status := r.status
  , editingVersion := r.editingVersion
  , editsign := r.editsign }

/-- The on-disk store as the constructor finds it when the dbversion row
differs from the code version: a single dbversion row and the legacy-schema
tables.  The filterList table is neither renamed nor dropped by the
migration, so it is omitted. -/
structure DiskStateOldSchema where
  version : Int
  countries : List CountryRow
  currencies : List CurrencyRow
  paymentMethods : List PaymentMethodRow
  offersSell : List OldOfferRow
  offersBuy : List OldOfferRow
  myOffers : List OldMyOfferRow
deriving DecidableEq, Repr

/-- Store state inside the migration transaction (dexdb.cpp:43-52).  Each
field is one table; none means the table does not currently exist.  Dropping
and recreating indexes does not change any row, so indexes are not
represented. -/
structure MigState where
  dbversion : Option (List Int)
  countries : Option (List CountryRow)
  currencies : Option (List CurrencyRow)
  paymentMethods : Option (List PaymentMethodRow)
  offersSell : Option (List OfferRow)
  offersBuy : Option (List OfferRow)
  myOffers : Option (List MyOfferRow)
  countriesOld : Option (List CountryRow)
  currenciesOld : Option (List CurrencyRow)
  paymentMethodsOld : Option (List PaymentMethodRow)
  offersSellOld : Option (List OldOfferRow)
  offersBuyOld : Option (List OldOfferRow)
  myOffersOld : Option (List OldMyOfferRow)
deriving DecidableEq, Repr

/-- DexDB::renameTables (dexdb.cpp:252): every data table except dbversion
and filterList is renamed to its _old name, so afterwards the current-name
offer and reference tables do not exist while dbversion keeps its row. -/
def renameTables (s : DiskStateOldSchema) : MigState :=
  { dbversion := some [s.version]
  , countries := none
  , currencies := none
  , paymentMethods := none
  , offersSell := none
  , offersBuy := none
  , myOffers := none
  , countriesOld := some s.countries
  , currenciesOld := some s.currencies
  , paymentMethodsOld := some s.paymentMethods
  , offersSellOld := some s.offersSell
  , offersBuyOld := some s.offersBuy
  , myOffersOld := some s.myOffers }

/-- DexDB::dropTables (dexdb.cpp:200): DROP TABLE IF EXISTS on every
current-name table; after renameTables only dbversion still exists under a
current name, so this is where the old dbversion row disappears. -/
def dropTables (s : MigState) : MigState :=
  { s with dbversion := none, countries := none, currencies := none,
           paymentMethods := none, myOffers := none, offersSell := none,
           offersBuy := none }

/-- DexDB::createTables (dexdb.cpp:1690): CREATE TABLE IF NOT EXISTS for
every current-name table — an absent table becomes an empty one, an existing
table keeps its rows. -/
def createTables (s : MigState) : MigState :=
  { s with dbversion := some (s.dbversion.getD [])
         , countries := some (s.countries.getD [])
         , currencies := some (s.currencies.getD [])
         , paymentMethods := some (s.paymentMethods.getD [])
         , offersSell := some (s.offersSell.getD [])
         , offersBuy := some (s.offersBuy.getD [])
         , myOffers := some (s.myOffers.getD []) }

/-- DexDB::moveTablesData (dexdb.cpp:221): INSERT INTO each new table a
SELECT over its _old counterpart — the reference tables verbatim
(SELECT *), the offer tables through the explicit column lists modelled by
migrateOfferRow and migrateMyOfferRow. -/
def moveTablesData (s : MigState) : MigState :=
  { s with
    countries := some (s.countries.getD [] ++ s.countriesOld.getD [])
  , currencies := some (s.currencies.getD [] ++ s.currenciesOld.getD [])
  , paymentMethods :=
      some (s.paymentMethods.getD [] ++ s.paymentMethodsOld.getD [])
  , offersSell :=
      some (s.offersSell.getD [] ++ (s.offersSellOld.getD []).map migrateOfferRow)
  , offersBuy :=
      some (s.offersBuy.getD [] ++ (s.offersBuyOld.getD []).map migrateOfferRow)
  , myOffers :=
      some (s.myOffers.getD [] ++ (s.myOffersOld.getD []).map migrateMyOfferRow) }

/-- DexDB::dropOldTables (dexdb.cpp:211): DROP TABLE IF EXISTS on every _old
table. -/
def dropOldTables (s : MigState) : MigState :=
  { s with countriesOld := none, currenciesOld := none,
           paymentMethodsOld := none, offersSellOld := none,
           offersBuyOld := none, myOffersOld := none }

/-- DexDB::addDefaultData (dexdb.cpp:1722) restricted to its persistent
effects: when a table holds no row, the dbversion row is set to the code
version (addDbVersion) and each empty reference table is seeded with the
DefaultDataForDb catalog, passed here as the three def lists.  Nonempty
tables are left untouched. -/
def addDefaultData (codeVersion : Int) (defCountries : List CountryRow)
    (defCurrencies : List CurrencyRow)
    (defPayments : List PaymentMethodRow) (s : MigState) : MigState :=
  let s1 := if (s.dbversion.getD []).length ≤ 0 then
      { s with dbversion := some (s.dbversion.getD [] ++ [codeVersion]) }
    else s
  let s2 := if (s1.currencies.getD []).length ≤ 0 then
      { s1 with currencies := some (s1.currencies.getD [] ++ defCurrencies) }
    else s1
  let s3 := if (s2.countries.getD []).length ≤ 0 then
      { s2 with countries := some (s2.countries.getD [] ++ defCountries) }
    else s2
  if (s3.paymentMethods.getD []).length ≤ 0 then
    { s3 with paymentMethods := some (s3.paymentMethods.getD [] ++ defPayments) }
  else s3

/-- DexDB::isDexDbOutdated (dexdb.cpp:126): the single dbversion row is
compared against uiDexDBversionInCode (the codeVersion argument here; the
constant itself is declared outside dexdb.cpp). -/
def isDexDbOutdated (codeVersion : Int) (s : DiskStateOldSchema) : Bool :=
  codeVersion != s.version

/-- The migration transaction of the DexDB constructor (dexdb.cpp:43-52),
run when isDexDbOutdated holds: dropIndexes; renameTables; dropTables;
createTables; moveTablesData; createIndexes; dropOldTables; addDefaultData
(the index statements touch no row). -/
def migrate (codeVersion : Int) (defCountries : List CountryRow)
    (defCurrencies : List CurrencyRow)
    (defPayments : List PaymentMethodRow) (s : DiskStateOldSchema) :
    MigState :=
  addDefaultData codeVersion defCountries defCurrencies defPayments
    (dropOldTables (moveTablesData (createTables (dropTables (renameTables s)))))

/-- A minimal valid offer (all-zero numeric fields, empty strings), used to
instantiate the general statements on concrete inputs. -/
def sampleOffer : OfferInfo :=
  { idTransaction := 0, hash := 0, pubKey := "", countryIso := ""
  , currencyIso := "", paymentMethod := 0, price := 0, minAmount := 0
  , timeCreate := 0, timeToExpiration := 0, timeModification := 0
  , shortInfo := "", details := "", editingVersion := 0, editsign := "" }

/-- A second offer carrying the same hash as sampleOffer but a different
price. -/
def sampleOfferB : OfferInfo :=
  { sampleOffer with price := 7 }

/-- A stored row whose hash differs from sampleOffer.hash. -/
def sampleOtherRow : OfferRow :=
  { bindOfferData sampleOffer with hash := 99 }

/-- A stored offer row with hash 1 and timeModification 0. -/
def sampleRowA : OfferRow :=
  { bindOfferData sampleOffer with hash := 1 }

/-- A stored offer row with hash 2 and timeModification 10. -/
def sampleRowB : OfferRow :=
  { bindOfferData sampleOffer with hash := 2, timeModification := 10 }

/-- A stored local offer expiring at time 5. -/
def sampleMyOffer : MyOfferRow :=
  { idTransaction := 0, hash := 0, pubKey := "", countryIso := ""
  , currencyIso := "", paymentMethod := 0, price := 0, minAmount := 0
  , timeCreate := 0, timeToExpiration := 5, timeModification := 0
  , shortInfo := "", details := "", type := 0, status := 0
  , editingVersion := 0, editsign := "" }

/-- A stored local offer whose type column holds 1. -/
def sampleMyOfferTyped : MyOfferRow :=
  { sampleMyOffer with type := 1, timeToExpiration := 0 }

/-- A legacy offer row with all-zero numeric fields. -/
def sampleOldOfferRow : OldOfferRow :=
  { idTransaction := 0, hash := 3, pubKey := "", countryIso := ""
  , currencyIso := "", paymentMethod := 0, price := 0, minAmount := 0
  , timeCreate := 4, timeToExpiration := 0, shortInfo := "", details := ""
  , editingVersion := 0, editsign := "" }

/-- A legacy local offer row. -/
def sampleOldMyOfferRow : OldMyOfferRow :=
  { hash := 6, idTransaction := 0, pubKey := "", countryIso := ""
  , currencyIso := "", paymentMethod := 0, price := 0, minAmount := 0
  , timeCreate := 8, timeToExpiration := 0, shortInfo := "", details := ""
  , type := 0, status := 0, editingVersion := 0, editsign := "" }

/-- A concrete legacy-schema store at version 1 with one row per table. -/
def sampleOldDisk : DiskStateOldSchema :=
  { version := 1
  , countries := [{ iso := "", name := "", enabled := true, currencyId := 0,
                    sortOrder := 0 }]
  , currencies := [{ id := 0, iso := "", name := "", symbol := "",
                     enabled := true, sortOrder := 0 }]
  , paymentMethods := [{ type := 1, name := "", description := "",
                         sortOrder := 0 }]
  , offersSell := [sampleOldOfferRow]
  , offersBuy := [sampleOldOfferRow]
  , myOffers := [sampleOldMyOfferRow] }

theorem ofInt64_toInt64 (v : Nat) (h : v < 2 ^ 64) :
    ofInt64 (toInt64 v) = v := by
  unfold ofInt64 toInt64
  split <;> omega

theorem ofInt32_toInt32 (v : Nat) (h : v < 2 ^ 32) :
    ofInt32 (toInt32 v) = v := by
  unfold ofInt32 toInt32
  split <;> omega

theorem getOfferFromRow_bindOfferData (o : OfferInfo) (hv : ValidOfferInfo o) :
    getOfferFromRow (bindOfferData o) = o := by
  obtain ⟨h1, h2, h3, h4, h5, h6, h7, h8, h9⟩ := hv
  cases o with
  | mk idT hsh pk co cu pm pr ma tc te tm si de ev es =>
    simp [getOfferFromRow, bindOfferData, ofInt64_toInt64 _ h4,
      ofInt64_toInt64 _ h5, ofInt64_toInt64 _ h6, ofInt64_toInt64 _ h7,
      ofInt64_toInt64 _ h8, ofInt32_toInt32 _ h9]

theorem migrate_eq (codeVersion : Int) (defCountries : List CountryRow)
    (defCurrencies : List CurrencyRow) (defPayments : List PaymentMethodRow)
    (s : DiskStateOldSchema) :
    migrate codeVersion defCountries defCurrencies defPayments s =
      { dbversion := some [codeVersion]
      , countries := some (if s.countries.length ≤ 0 then
          s.countries ++ defCountries else s.countries)
      , currencies := some (if s.currencies.length ≤ 0 then
          s.currencies ++ defCurrencies else s.currencies)
      , paymentMethods := some (if s.paymentMethods.length ≤ 0 then
          s.paymentMethods ++ defPayments else s.paymentMethods)
      , offersSell := some (s.offersSell.map migrateOfferRow)
      , offersBuy := some (s.offersBuy.map migrateOfferRow)
      , myOffers := some (s.myOffers.map migrateMyOfferRow)
      , countriesOld := none
      , currenciesOld := none
      , paymentMethodsOld := none
      , offersSellOld := none
      , offersBuyOld := none
      , myOffersOld := none } := by
  unfold migrate addDefaultData dropOldTables moveTablesData createTables
    dropTables renameTables
  split_ifs <;> simp_all

/-- C1 counterexample: the expiration sweep does delete local offers.  The
local record sampleMyOffer (timeToExpiration 5) is in the myOffers table,
and DexDB::deleteOldMyOffers — one of the sweep entry points — removes it at
now = 10, refuting the sentence that the sweep never deletes any local
offer. -/
theorem deleteOldMyOffers_deletes_local_offer :
    sampleMyOffer ∈ ([sampleMyOffer] : List MyOfferRow) ∧
    sampleMyOffer.timeToExpiration ≤ 10 ∧
    deleteOldMyOffers [sampleMyOffer] 10 = [] := by
  refine ⟨by simp, by decide, by decide⟩

/-- C1 (amended): on the remote sets deleteOldOffers keeps exactly the
records with timeToExpiration > now (deleting exactly those with
timeToExpiration <= now) and leaves every kept record unchanged;
setStatusExpiredForMyOffers deletes nothing (the hash column sequence is
preserved) and rewrites each record to its Expired form exactly when
timeToExpiration < now; but the local set is not free of sweep deletion:
deleteOldMyOffers removes exactly the local records with
timeToExpiration <= now. -/
theorem expiration_sweep_behavior (rows : List OfferRow)
    (myRows : List MyOfferRow) (now expired : Int) :
    (∀ r : OfferRow, r ∈ deleteOldOffers rows now ↔
       r ∈ rows ∧ now < r.timeToExpiration) ∧
    ((setStatusExpiredForMyOffers myRows now expired).map MyOfferRow.hash
       = myRows.map MyOfferRow.hash) ∧
    (∀ r ∈ myRows,
       (if r.timeToExpiration < now then { r with status := expired } else r)
         ∈ setStatusExpiredForMyOffers myRows now expired) ∧
    (∀ r : MyOfferRow, r ∈ deleteOldMyOffers myRows now ↔
       r ∈ myRows ∧ now < r.timeToExpiration) := by
  refine ⟨?_, ?_, ?_, ?_⟩
  · intro r
    simp [deleteOldOffers, List.mem_filter]
  · unfold setStatusExpiredForMyOffers
    rw [List.map_map]
    refine List.map_congr_left ?_
    intro r _
    by_cases hr : r.timeToExpiration < now <;> simp [hr]
  · intro r hr
    unfold setStatusExpiredForMyOffers
    exact List.mem_map_of_mem _ hr
  · intro r
    simp [deleteOldMyOffers, List.mem_filter]

/-- C2: when the backing-engine status is nonzero, finishTableOperation
throws DexDBException(status) immediately, so the function returns by
exception and no observer receives any event — in particular no Error
fan-out follows the raise (the branch computing the Error outcome is
unreachable). -/
theorem finishTableOperation_nonzero_raises_without_fanout
    (tables : TypeTable) (operation : TypeTableOperation) (status : Int)
    (observers : List Nat) (h : status ≠ 0) :
    finishTableOperation tables operation status observers =
      Except.error status := by
  simp [finishTableOperation, h]

/-- C2 witness: concrete nonzero status with one registered observer. -/
theorem finishTableOperation_nonzero_raises_without_fanout_witness :
    (1 : Int) ≠ 0 ∧
    finishTableOperation TypeTable.OffersSell TypeTableOperation.Add 1 [0] =
      Except.error 1 :=
  ⟨by decide,
   finishTableOperation_nonzero_raises_without_fanout _ _ _ _ (by decide)⟩

/-- C10: in the filtered list operations the LIMIT clause (and with it the
OFFSET clause) is only emitted when limit > 0, so any call with
limit <= 0 returns the full filtered result, independent of offset, for
remote offers and local offers alike. -/
theorem limit_nonpos_ignores_offset (rows : List OfferRow)
    (myRows : List MyOfferRow) (countryIso currencyIso : String)
    (payment : Nat) (typeOffer statusOffer limit offset : Int)
    (h : limit ≤ 0) :
    getOffers rows countryIso currencyIso payment limit offset =
      rows.filter (fun row =>
        offerRowMatches row countryIso currencyIso payment) ∧
    getMyOffers myRows countryIso currencyIso payment typeOffer statusOffer
        limit offset =
      myRows.filter (fun row =>
        myOfferRowMatches row countryIso currencyIso payment typeOffer
          statusOffer) := by
  unfold getOffers getMyOffers applyLimitOffset
  have hlt : ¬ (0 < limit) := by omega
  simp [hlt]

/-- C10 witness: concrete table, limit 0 and a positive offset. -/
theorem limit_nonpos_ignores_offset_witness :
    (0 : Int) ≤ 0 ∧
    (getOffers [sampleRowA] "" "" 0 0 3 =
       [sampleRowA].filter (fun row => offerRowMatches row "" "" 0) ∧
     getMyOffers [sampleMyOffer] "" "" 0 0 0 0 3 =
       [sampleMyOffer].filter (fun row =>
         myOfferRowMatches row "" "" 0 0 0)) :=
  ⟨by decide, limit_nonpos_ignores_offset _ _ _ _ _ _ _ _ _ (by decide)⟩

/-- C5: after a successful add of an offer, adding any offer with the same
hash fails with DuplicateKey (the hash PRIMARY KEY violation) and the table
contents after the failed attempt are exactly the contents after the first
add. -/
theorem addOffer_duplicate_fails (rows rows2 : List OfferRow)
    (o o2 : OfferInfo) (h1 : addOffer rows o = (none, rows2))
    (hh : o2.hash = o.hash) :
    addOffer rows2 o2 = (some DexError.DuplicateKey, rows2) := by
  unfold addOffer at h1 ⊢
  by_cases hdup : rows.any fun row => row.hash == (bindOfferData o).hash
  · simp [hdup] at h1
  · simp only [hdup, Bool.false_eq_true, if_neg, ite_false, Prod.mk.injEq] at h1
    obtain ⟨-, hrows⟩ := h1
    have hhash : (bindOfferData o2).hash = (bindOfferData o).hash := by
      simp [bindOfferData, hh]
    have hmem : (rows ++ [bindOfferData o]).any
        (fun row => row.hash == (bindOfferData o2).hash) = true := by
      simp [List.any_append, hhash]
    rw [← hrows]
    simp [hmem]

/-- C5 witness: adding sampleOffer to the empty table and then adding
sampleOfferB, which shares its hash. -/
theorem addOffer_duplicate_fails_witness :
    addOffer [] sampleOffer = (none, [bindOfferData sampleOffer]) ∧
    sampleOfferB.hash = sampleOffer.hash ∧
    addOffer [bindOfferData sampleOffer] sampleOfferB =
      (some DexError.DuplicateKey, [bindOfferData sampleOffer]) :=
  ⟨by decide, by decide,
   addOffer_duplicate_fails [] _ sampleOffer sampleOfferB (by decide) (by decide)⟩

/-- C6 counterexample: an edit whose hash is absent from the table raises no
error at all — the UPDATE matches no row, sqlite3pp reports status 0 and the
call completes normally — contradicting the claimed NotFound failure. -/
theorem editOffer_missing_raises_no_error :
    editOffer [] sampleOffer = (none, []) ∧
    (editOffer [] sampleOffer).1 ≠ some DexError.NotFound := by
  exact ⟨by decide, by decide⟩

/-- C6 (amended): an edit whose hash matches no stored row completes without
any error (in particular no NotFound is reported) and leaves the store
unchanged. -/
theorem editOffer_missing_is_noop (rows : List OfferRow) (o : OfferInfo)
    (h : ∀ row ∈ rows, row.hash ≠ o.hash) :
    editOffer rows o = (none, rows) := by
  unfold editOffer
  refine congrArg (Prod.mk none) ?_
  have hid : ∀ row ∈ rows,
      (if row.hash == (bindOfferData o).hash then
        { bindOfferData o with idTransaction := row.idTransaction }
      else row) = row := by
    intro row hrow
    have hne : row.hash ≠ (bindOfferData o).hash := by
      simpa [bindOfferData] using h row hrow
    simp [hne]
  calc rows.map (fun row =>
          if row.hash == (bindOfferData o).hash then
            { bindOfferData o with idTransaction := row.idTransaction }
          else row)
      = rows.map id := List.map_congr_left hid
    _ = rows := List.map_id rows

/-- C6 witness: editing sampleOffer (hash 0) against a table holding only a
row with hash 99. -/
theorem editOffer_missing_is_noop_witness :
    (∀ row ∈ ([sampleOtherRow] : List OfferRow),
       row.hash ≠ sampleOffer.hash) ∧
    editOffer [sampleOtherRow] sampleOffer = (none, [sampleOtherRow]) :=
  ⟨by decide, editOffer_missing_is_noop [sampleOtherRow] sampleOffer (by decide)⟩

/-- C9: the code does notify observers with a table different from the one
the operation operated on.  addCurrency appends its row to the currencies
table and leaves countries untouched, yet every event it delivers is tagged
Countries; lastModificationOffersSell reads the offersSell table yet tags
its event OffersBuy.  This contradicts the claim that events always carry
the operated-on table. -/
theorem addCurrency_and_lastModification_mislabel_events
    (s : RefTablesState) (row : CurrencyRow) (sellRows : List OfferRow)
    (o : Nat) :
    (addCurrency s row [o]).1.currencies = s.currencies ++ [row] ∧
    (addCurrency s row [o]).1.countries = s.countries ∧
    (addCurrency s row [o]).2 =
      Except.ok [{ observer := o, tables := TypeTable.Countries,
                   operation := TypeTableOperation.Add,
                   status := StatusTableOperation.Ok }] ∧
    (lastModificationOffersSell sellRows [o]).2 =
      Except.ok [{ observer := o, tables := TypeTable.OffersBuy,
                   operation := TypeTableOperation.Read,
                   status := StatusTableOperation.Ok }] := by
  refine ⟨rfl, rfl, ?_, ?_⟩ <;>
    simp [addCurrency, lastModificationOffersSell, finishTableOperation]

/-- C3: opening a nonempty store whose dbversion row holds codeVersion - 1
runs the migration, after which the offer tables hold exactly the images of
the legacy rows under the explicit column mapping (so every legacy row is
present under its unchanged hash, migrateOfferRow and migrateMyOfferRow
keeping the hash field), the reference rows are all carried over, every
renamed _old table has been dropped, and the dbversion row reads
codeVersion. -/
theorem migration_moves_rows_and_drops_legacy (codeVersion : Int)
    (defCountries : List CountryRow) (defCurrencies : List CurrencyRow)
    (defPayments : List PaymentMethodRow) (s : DiskStateOldSchema)
    (h : s.version = codeVersion - 1) :
    isDexDbOutdated codeVersion s = true ∧
    (migrate codeVersion defCountries defCurrencies defPayments s).dbversion
      = some [codeVersion] ∧
    (migrate codeVersion defCountries defCurrencies defPayments s).offersSell
      = some (s.offersSell.map migrateOfferRow) ∧
    (migrate codeVersion defCountries defCurrencies defPayments s).offersBuy
      = some (s.offersBuy.map migrateOfferRow) ∧
    (migrate codeVersion defCountries defCurrencies defPayments s).myOffers
      = some (s.myOffers.map migrateMyOfferRow) ∧
    (∀ r ∈ s.countries, r ∈
      (migrate codeVersion defCountries defCurrencies defPayments
        s).countries.getD []) ∧
    (∀ r ∈ s.currencies, r ∈
      (migrate codeVersion defCountries defCurrencies defPayments
        s).currencies.getD []) ∧
    (∀ r ∈ s.paymentMethods, r ∈
      (migrate codeVersion defCountries defCurrencies defPayments
        s).paymentMethods.getD []) ∧
    (∀ r : OldOfferRow, (migrateOfferRow r).hash = r.hash) ∧
    (∀ r : OldMyOfferRow, (migrateMyOfferRow r).hash = r.hash) ∧
    (migrate codeVersion defCountries defCurrencies defPayments
      s).offersSellOld = none ∧
    (migrate codeVersion defCountries defCurrencies defPayments
      s).offersBuyOld = none ∧
    (migrate codeVersion defCountries defCurrencies defPayments
      s).myOffersOld = none ∧
    (migrate codeVersion defCountries defCurrencies defPayments
      s).countriesOld = none ∧
    (migrate codeVersion defCountries defCurrencies defPayments
      s).currenciesOld = none ∧
    (migrate codeVersion defCountries defCurrencies defPayments
      s).paymentMethodsOld = none := by
  constructor
  · simp only [isDexDbOutdated, h, bne_iff_ne, ne_eq]
    omega
  · refine ⟨?_, ?_, ?_, ?_, ?_, ?_, ?_, fun r => rfl, fun r => rfl,
      ?_, ?_, ?_, ?_, ?_, ?_⟩
    all_goals simp only [migrate_eq]
    all_goals first
      | rfl
      | (intro r hr
         split_ifs <;> simp [hr])

/-- C3 witness: a concrete legacy store at version 1 opened at code version
2 with empty seed catalogs. -/
theorem migration_moves_rows_and_drops_legacy_witness :
    sampleOldDisk.version = 2 - 1 ∧
    (migrate 2 [] [] [] sampleOldDisk).dbversion = some [2] ∧
    (migrate 2 [] [] [] sampleOldDisk).offersSell =
      some (sampleOldDisk.offersSell.map migrateOfferRow) ∧
    (migrate 2 [] [] [] sampleOldDisk).myOffers =
      some (sampleOldDisk.myOffers.map migrateMyOfferRow) ∧
    (migrate 2 [] [] [] sampleOldDisk).offersSellOld = none :=
  ⟨by decide,
   (migration_moves_rows_and_drops_legacy 2 [] [] [] sampleOldDisk
     (by decide)).2.1,
   (migration_moves_rows_and_drops_legacy 2 [] [] [] sampleOldDisk
     (by decide)).2.2.1,
   (migration_moves_rows_and_drops_legacy 2 [] [] [] sampleOldDisk
     (by decide)).2.2.2.2.1,
   (migration_moves_rows_and_drops_legacy 2 [] [] [] sampleOldDisk
     (by decide)).2.2.2.2.2.2.2.2.2.2.1⟩

/-- C4: for every window bound t, against a table whose hash column is
unique (the PRIMARY KEY invariant), the Before(t) and After(t) manifests
partition the All manifest: a pair belongs to one of the two windows exactly
when it belongs to the full manifest, and no pair belongs to both. -/
theorem manifest_window_partition (rows : List OfferRow) (t : Int)
    (hpk : (rows.map OfferRow.hash).Nodup) :
    (∀ p : Nat × Nat,
       (p ∈ getHashsAndEditingVersions rows OffersPeriod.Before t ∨
        p ∈ getHashsAndEditingVersions rows OffersPeriod.After t) ↔
       p ∈ getHashsAndEditingVersions rows OffersPeriod.All t) ∧
    (∀ p : Nat × Nat,
       p ∈ getHashsAndEditingVersions rows OffersPeriod.Before t →
       p ∉ getHashsAndEditingVersions rows OffersPeriod.After t) := by
  constructor
  · intro p
    simp only [getHashsAndEditingVersions, List.mem_dedup, List.mem_map,
      List.mem_filter, decide_eq_true_eq]
    constructor
    · rintro (⟨r, ⟨hr, -⟩, hfr⟩ | ⟨r, ⟨hr, -⟩, hfr⟩) <;> exact ⟨r, hr, hfr⟩
    · rintro ⟨r, hr, hfr⟩
      by_cases hlt : r.timeModification < t
      · exact Or.inl ⟨r, ⟨hr, hlt⟩, hfr⟩
      · exact Or.inr ⟨r, ⟨hr, by omega⟩, hfr⟩
  · intro p hb ha
    simp only [getHashsAndEditingVersions, List.mem_dedup, List.mem_map,
      List.mem_filter, decide_eq_true_eq] at hb ha
    obtain ⟨r1, ⟨hr1, hlt⟩, hf1⟩ := hb
    obtain ⟨r2, ⟨hr2, hge⟩, hf2⟩ := ha
    have hpair := hf1.trans hf2.symm
    rw [Prod.mk.injEq] at hpair
    have heq : r1 = r2 :=
      List.inj_on_of_nodup_map hpk hr1 hr2 hpair.1
    rw [heq] at hlt
    omega

/-- C4 witness: two rows with distinct hashes split by the window bound 5;
the pair of the row modified at time 10 is in the full manifest and not in
the Before(5) manifest. -/
theorem manifest_window_partition_witness :
    ([sampleRowA, sampleRowB].map OfferRow.hash).Nodup ∧
    ((2 : Nat), (0 : Nat)) ∈
      getHashsAndEditingVersions [sampleRowA, sampleRowB]
        OffersPeriod.All 5 ∧
    ((2 : Nat), (0 : Nat)) ∉
      getHashsAndEditingVersions [sampleRowA, sampleRowB]
        OffersPeriod.Before 5 :=
  ⟨by decide,
   ((manifest_window_partition [sampleRowA, sampleRowB] 5 (by decide)).1
     (2, 0)).mp (Or.inr (by decide)),
   fun hb =>
     (manifest_window_partition [sampleRowA, sampleRowB] 5 (by decide)).2
       (2, 0) hb (by decide)⟩

/-- C7: adding a valid offer that the table accepts and then reading it back
by hash returns a record equal to the one added — every field survives the
two's complement casts of bindOfferData and the reverse casts of the row
decoder. -/
theorem addOffer_then_getOfferByHash (rows rows2 : List OfferRow)
    (o : OfferInfo) (hv : ValidOfferInfo o)
    (h : addOffer rows o = (none, rows2)) :
    getOfferByHash rows2 o.hash = some o := by
  unfold addOffer at h
  by_cases hdup : rows.any fun row => row.hash == (bindOfferData o).hash
  · simp [hdup] at h
  · simp only [hdup, Bool.false_eq_true, ite_false, Prod.mk.injEq] at h
    obtain ⟨-, hrows⟩ := h
    unfold getOfferByHash
    rw [← hrows, List.find?_append]
    have hnone : rows.find? (fun row => row.hash == o.hash) = none := by
      rw [List.find?_eq_none]
      intro x hx hbeq
      refine hdup ?_
      rw [List.any_eq_true]
      refine ⟨x, hx, ?_⟩
      simpa [bindOfferData] using hbeq
    rw [hnone]
    have hfind : List.find? (fun row => row.hash == o.hash) [bindOfferData o]
        = some (bindOfferData o) := by
      simp [List.find?, bindOfferData]
    simp [hfind, getOfferFromRow_bindOfferData o hv]

/-- C7 witness: adding sampleOffer to the empty table and reading it back. -/
theorem addOffer_then_getOfferByHash_witness :
    ValidOfferInfo sampleOffer ∧
    addOffer [] sampleOffer = (none, [bindOfferData sampleOffer]) ∧
    getOfferByHash [bindOfferData sampleOffer] sampleOffer.hash =
      some sampleOffer :=
  ⟨by decide, by decide,
   addOffer_then_getOfferByHash [] [bindOfferData sampleOffer] sampleOffer
     (by decide) (by decide)⟩

/-- C8 counterexample: the type filter value zero is not a wildcard.  With
every other filter field at its sentinel value, type = 0 excludes the stored
local offer whose type column holds 1, so the default-like filter does not
return every record. -/
theorem getMyOffers_type_zero_constrains :
    getMyOffers [sampleMyOfferTyped] "" "" 0 0 0 (-1) 0 = [] ∧
    ([] : List MyOfferRow) ≠ [sampleMyOfferTyped] :=
  ⟨by decide, by decide⟩

/-- C8 (amended): an empty countryIso or currencyIso, a zero paymentMethod,
a negative type, and a zero-or-negative status impose no constraint, so a
filter with those values (with no LIMIT clause) returns every record and
counts every record; type is the exception to the claim — only negative
values deactivate it, zero constrains. -/
theorem wildcard_filter_matches_all (rows : List MyOfferRow)
    (rows2 : List OfferRow) (typeOffer statusOffer limit offset : Int)
    (hty : typeOffer < 0) (hst : statusOffer ≤ 0) (hlim : limit ≤ 0) :
    getMyOffers rows "" "" 0 typeOffer statusOffer limit offset = rows ∧
    getOffers rows2 "" "" 0 limit offset = rows2 ∧
    countOffers rows "" "" 0 typeOffer statusOffer = rows.length := by
  have hmy : ∀ row : MyOfferRow,
      myOfferRowMatches row "" "" 0 typeOffer statusOffer = true := by
    intro row
    unfold myOfferRowMatches
    have h1 : ¬ (0 : Int) ≤ typeOffer := by omega
    have h2 : ¬ (0 : Int) < statusOffer := by omega
    simp [h1, h2]
  have hre : ∀ row : OfferRow, offerRowMatches row "" "" 0 = true := by
    intro row
    unfold offerRowMatches
    simp
  have hnl : ¬ (0 : Int) < limit := by omega
  refine ⟨?_, ?_, ?_⟩
  · unfold getMyOffers applyLimitOffset
    simp [hnl, List.filter_eq_self.mpr fun a _ => hmy a]
  · unfold getOffers applyLimitOffset
    simp [hnl, List.filter_eq_self.mpr fun a _ => hre a]
  · unfold countOffers
    simp [List.filter_eq_self.mpr fun a _ => hmy a]

/-- C8 witness: the wildcard filter values on concrete one-row tables. -/
theorem wildcard_filter_matches_all_witness :
    (-1 : Int) < 0 ∧ (0 : Int) ≤ 0 ∧ (0 : Int) ≤ 0 ∧
    (getMyOffers [sampleMyOfferTyped] "" "" 0 (-1) 0 0 4 =
       [sampleMyOfferTyped] ∧
     getOffers [sampleRowA] "" "" 0 0 4 = [sampleRowA] ∧
     countOffers [sampleMyOfferTyped] "" "" 0 (-1) 0 =
       [sampleMyOfferTyped].length) :=
  ⟨by decide, by decide, by decide,
   wildcard_filter_matches_all [sampleMyOfferTyped] [sampleRowA] (-1) 0 0 4
     (by decide) (by decide) (by decide)⟩

end dex
